import Mathlib

/-!
Verification development for the certificate-transparency log frontend core
(`src/cpp/log`). The C++ data model and operations are shallowly embedded as
executable Lean definitions; byte strings are `List Nat`, OpenSSL key objects
are abstracted to their algorithm family plus an identifier of the underlying
key material, and protobuf messages become Lean structures. Where an
implementation file of this repository is not available (verifier.cc,
frontend_signer.cc, cert_checker.cc, cert_submission_handler.cc), the
corresponding definition is modelled from the specification document and is
marked `Modelled from the spec:` in its doc comment.
-/

namespace CT

/-- Algorithm family of an OpenSSL `EVP_PKEY` (the `pkey->type` field
inspected by `Signer::Signer` in signer.cc). -/
inductive KeyType where
| EC
| RSA
| DSA
| DH
deriving DecidableEq, Repr

/-- Abstraction of an OpenSSL `EVP_PKEY`: its algorithm family and an
identifier of the underlying key material. A private-key handle and a
public-key handle of the same keypair carry the same `material`; the
public key's canonical encoding (`i2d_PUBKEY`) is determined by it. -/
structure EVP_PKEY where
  type : KeyType
  material : Nat
deriving DecidableEq, Repr

/-- `DigitallySigned::HashAlgorithm` from proto/ct.pb (the values used in
signer.cc are `NONE` and `SHA256`). -/
inductive HashAlgorithm where
| NONE
| SHA256
deriving DecidableEq, Repr

/-- `DigitallySigned::SignatureAlgorithm` from proto/ct.pb (the values used
in signer.cc are `ANONYMOUS` and `ECDSA`). -/
inductive SignatureAlgorithm where
| ANONYMOUS
| ECDSA
deriving DecidableEq, Repr

/-- The `ct::DigitallySigned` protobuf message: hash algorithm, signature
algorithm and raw signature bytes (signer.cc lines 40-45 set all three). -/
structure DigitallySigned where
  hash_algorithm : HashAlgorithm
  sig_algorithm : SignatureAlgorithm
  signature : List Nat
deriving DecidableEq, Repr

/-- Modelled from the spec: `Verifier::ComputeKeyID` (declared in verifier.h
line 32; verifier.cc is not in the sources). Per the spec it is "a fixed
hash of the public key's canonical encoding"; the hash is deterministic and
treated as collision-free, so the key identifier is modelled as the public
key material itself. -/
def ComputeKeyID (pkey : EVP_PKEY) : Nat :=
  pkey.material

/-- `Signer::RawSign` (signer.cc lines 52-68) computes an ECDSA signature
over the SHA-256 digest of the data with the bound key. The OpenSSL
primitive is external to the repository, so the signature scheme is
modelled abstractly: a signature is the key material followed by the data,
and verification accepts exactly signatures produced with matching key
material. -/
def RawSign (pkey : EVP_PKEY) (data : List Nat) : List Nat :=
  pkey.material :: data

/-- Modelled from the spec: `Verifier::RawVerify` (declared in verifier.h
line 39; verifier.cc is not in the sources) checks the signature bytes
cryptographically against the bound public key. In the abstract scheme of
`RawSign` this accepts exactly the signatures made with matching material. -/
def RawVerify (pkey : EVP_PKEY) (data : List Nat) (sig : List Nat) : Bool :=
  sig == pkey.material :: data

/-- The `ct::Signer` object after construction: the bound key and the
instance-bound algorithm identifiers and key id (fields of signer.h, set
once by the constructor in signer.cc lines 19-30). -/
structure Signer where
  pkey : EVP_PKEY
  hash_algo : HashAlgorithm
  sig_algo : SignatureAlgorithm
  key_id : Nat
deriving DecidableEq, Repr

/-- `Signer::Signer(EVP_PKEY*)` (signer.cc lines 19-30): an `EC` key binds
`SHA256`/`ECDSA` and caches `Verifier::ComputeKeyID(pkey)`; every other
key type hits `LOG(FATAL)`, modelled as `none` (process abort, no Signer
object ever exists). -/
def mkSigner (pkey : EVP_PKEY) : Option Signer :=
  match pkey.type with
  | .EC => some { pkey := pkey, hash_algo := .SHA256, sig_algo := .ECDSA,
                  key_id := ComputeKeyID pkey }
  | _ => none

/-- `Signer::KeyID` (signer.cc lines 36-38): returns the cached key id. -/
def Signer.KeyID (s : Signer) : Nat :=
  s.key_id

/-- `Signer::Sign` (signer.cc lines 40-45): tags the result with the
instance-bound hash and signature algorithms and sets the signature to
`RawSign(data)`. -/
def Signer.Sign (s : Signer) (data : List Nat) : DigitallySigned :=
  { hash_algorithm := s.hash_algo
    sig_algorithm := s.sig_algo
    signature := RawSign s.pkey data }

/-- `Verifier::Status` (verifier.h lines 17-22). -/
inductive VerifyStatus where
| OK
| HASH_ALGORITHM_MISMATCH
| SIGNATURE_ALGORITHM_MISMATCH
| INVALID_SIGNATURE
deriving DecidableEq, Repr

/-- The `ct::Verifier` object after construction (fields of verifier.h
lines 41-44). -/
structure Verifier where
  pkey : EVP_PKEY
  hash_algo : HashAlgorithm
  sig_algo : SignatureAlgorithm
  key_id : Nat
deriving DecidableEq, Repr

/-- Modelled from the spec: `Verifier::Verifier(EVP_PKEY*)` (verifier.cc is
not in the sources). Per the spec the verifier "independently computes the
same key identifier scheme" and binds the algorithm identifiers per
instance, mirroring the signer's constructor: an `EC` key binds
`SHA256`/`ECDSA`, anything else is a fatal configuration error. -/
def mkVerifier (pkey : EVP_PKEY) : Option Verifier :=
  match pkey.type with
  | .EC => some { pkey := pkey, hash_algo := .SHA256, sig_algo := .ECDSA,
                  key_id := ComputeKeyID pkey }
  | _ => none

/-- `Verifier::KeyID` (verifier.h line 27): returns the cached key id. -/
def Verifier.KeyID (v : Verifier) : Nat :=
  v.key_id

/-- Modelled from the spec: `Verifier::Verify` (declared in verifier.h
lines 29-30; verifier.cc is not in the sources). Per the spec it "checks
that declared algorithms match the Verifier's configuration before
attempting cryptographic verification", returning
`HASH_ALGORITHM_MISMATCH` / `SIGNATURE_ALGORITHM_MISMATCH` on a mismatch
and `INVALID_SIGNATURE` (never an exception) when the bytes fail to
verify. -/
def Verifier.Verify (v : Verifier) (input : List Nat) (sig : DigitallySigned) :
    VerifyStatus :=
  if sig.hash_algorithm ≠ v.hash_algo then .HASH_ALGORITHM_MISMATCH
  else if sig.sig_algorithm ≠ v.sig_algo then .SIGNATURE_ALGORITHM_MISMATCH
  else if RawVerify v.pkey input sig.signature then .OK
  else .INVALID_SIGNATURE

/-- Abstraction of a parsed X.509 certificate (`ct::Cert`): subject and
issuer identities, its public key, the key that actually produced its
signature (an issuer candidate's signature check succeeds exactly when its
public key equals `sigKey`), the validity window, the CT poison-extension
flag identifying a pre-certificate, and the extended-key-usage flag
identifying a dedicated Precertificate Signing Certificate. -/
structure Cert where
  subject : Nat
  issuer : Nat
  pubKey : Nat
  sigKey : Nat
  notBefore : Nat
  notAfter : Nat
  poison : Bool
  preSigning : Bool
deriving DecidableEq, Repr

/-- One encoded block of a submission: either it decodes into a valid
certificate structure or it is garbage (`INVALID_PEM_ENCODED_CHAIN`). -/
inductive Block where
| cert (c : Cert)
| garbage
deriving DecidableEq, Repr

/-- Modelled from the spec: ChainLoader block decoding (the chain-loading
code called by `CertSubmissionHandler::ProcessSubmission` is not in the
sources). Decodes every block of a submission, failing if any block fails
to decode; performs no trust evaluation. -/
def decodeBlocks : List Block → Option (List Cert)
  | [] => some []
  | Block.cert c :: rest => (decodeBlocks rest).map (c :: ·)
  | Block.garbage :: _ => none

/-- The per-certificate validity-window sanity check of the spec's chain
validation step 1. -/
def windowSane (c : Cert) : Bool :=
  decide (c.notBefore ≤ c.notAfter)

/-- Issuer/subject linkage plus signature check for an adjacent pair
(`c` directly followed by its claimed issuer `i`): the later certificate's
subject equals the former's issuer and the later's public key validates
the former's signature. -/
def linkOK (c i : Cert) : Bool :=
  decide (i.subject = c.issuer) && decide (c.sigKey = i.pubKey)

/-- Modelled from the spec: CertChecker validation step 1 (cert_checker.cc
is not in the sources). Verifies, leaf first, the validity window of every
member and the issuer/subject linkage and signature of every adjacent
pair. -/
def chainLinked : List Cert → Bool
  | [] => true
  | [c] => windowSane c
  | c :: i :: rest => windowSane c && linkOK c i && chainLinked (i :: rest)

/-- Modelled from the spec: CertChecker validation step 2 (cert_checker.cc
is not in the sources). If the last certificate of the submitted chain is
itself a trust anchor the chain is already anchored; otherwise, if it is
issued by an anchor found in the TrustedRootStore, the resolved anchor is
appended; otherwise no anchor can be found. -/
def anchorChain (store : List Cert) (chain : List Cert) : Option (List Cert) :=
  match chain.getLast? with
  | none => none
  | some last =>
    if decide (last ∈ store) then some chain
    else
      match store.find? (fun a => linkOK last a) with
      | some a => some (chain ++ [a])
      | none => none

/-- Chain classification produced by CertChecker validation step 3. -/
inductive ChainClass where
| Plain
| PreCertChain
deriving DecidableEq, Repr

/-- Modelled from the spec: CertChecker validation step 3 (cert_checker.cc
is not in the sources). The leaf of the anchored chain is classified as a
pre-certificate if it carries the poison marker extension or if it was
issued by a certificate flagged as a dedicated Precertificate Signing
Certificate; otherwise the chain is plain. -/
def classify : List Cert → ChainClass
  | [] => ChainClass.Plain
  | leaf :: rest =>
    if leaf.poison then ChainClass.PreCertChain
    else
      match rest with
      | i :: _ => if i.preSigning then ChainClass.PreCertChain else ChainClass.Plain
      | [] => ChainClass.Plain

/-- `CertSubmissionHandler::SubmitResult` status codes (the values checked
by cert_submission_handler_test.cc; the kind-mismatch failure is left
unspecified by the spec beyond not being `OK`). -/
inductive SubmitStatus where
| OK
| EMPTY_SUBMISSION
| INVALID_PEM_ENCODED_CHAIN
| INVALID_CERTIFICATE_CHAIN
| UNKNOWN_ROOT
| KIND_MISMATCH
deriving DecidableEq, Repr

/-- Modelled from the spec: CertChecker chain validation steps 1-2
(cert_checker.cc is not in the sources): linkage violation is
`INVALID_CERTIFICATE_CHAIN`, failure to anchor is `UNKNOWN_ROOT`,
otherwise the anchored chain is returned. The submitted order is never
reordered. -/
def checkCertChain (store : List Cert) (chain : List Cert) :
    SubmitStatus × Option (List Cert) :=
  if chainLinked chain then
    match anchorChain store chain with
    | some anchored => (SubmitStatus.OK, some anchored)
    | none => (SubmitStatus.UNKNOWN_ROOT, none)
  else (SubmitStatus.INVALID_CERTIFICATE_CHAIN, none)

/-- The `ct::LogEntry` entry kind (`ct::X509_ENTRY` / `ct::PRECERT_ENTRY`
from proto/ct.pb). -/
inductive EntryKind where
| X509_ENTRY
| PRECERT_ENTRY
deriving DecidableEq, Repr

/-- The `ct::X509ChainEntry` message: the leaf certificate and the
certificate chain (intermediates plus resolved root, leaf excluded). -/
structure X509EntryData where
  leaf_certificate : Cert
  certificate_chain : List Cert
deriving DecidableEq, Repr

/-- The `ct::PreCert` message: issuer key hash and the TBS certificate
with the poison extension stripped. -/
structure PreCertData where
  issuer_key_hash : Nat
  tbs_certificate : Cert
deriving DecidableEq, Repr

/-- The `ct::PrecertChainEntry` message: the submitted pre-certificate, the
derived `PreCert`, and the precertificate chain (members beyond the
leaf). -/
structure PreCertEntryData where
  pre_certificate : Cert
  pre_cert : PreCertData
  precertificate_chain : List Cert
deriving DecidableEq, Repr

/-- The `ct::LogEntry` message: a tagged variant with at most one of the
two entry payloads populated (`has_x509_entry` / `has_precert_entry`
correspond to the options being `some`). -/
structure LogEntry where
  type : EntryKind
  x509_entry : Option X509EntryData
  precert_entry : Option PreCertEntryData
deriving DecidableEq, Repr

/-- Modelled from the spec: stripping the poison extension from the leaf's
to-be-signed content and re-encoding it deterministically
(cert_submission_handler.cc is not in the sources). -/
def stripPoison (c : Cert) : Cert :=
  { c with poison := false }

/-- Modelled from the spec: the issuer key hash of a pre-certificate entry
(cert_submission_handler.cc is not in the sources): the hash (modelled,
like `ComputeKeyID`, as the key itself) of the public key of the
certificate that will ultimately sign the final certificate — the leaf's
issuer, or that issuer's own issuer when the leaf was issued via a
dedicated Precertificate Signing Certificate. `rest` is the anchored
chain beyond the leaf. -/
def issuerKeyHash (rest : List Cert) : Nat :=
  match rest with
  | [] => 0
  | i :: rest2 =>
    if i.preSigning then
      match rest2 with
      | j :: _ => j.pubKey
      | [] => i.pubKey
    else i.pubKey

/-- Modelled from the spec: populating the `X509Entry` variant
(cert_submission_handler.cc is not in the sources): the leaf and the
anchored chain beyond it, anchor included; the pre-cert variant absent. -/
def mkX509Entry (leaf : Cert) (rest : List Cert) : LogEntry :=
  { type := EntryKind.X509_ENTRY
    x509_entry := some { leaf_certificate := leaf, certificate_chain := rest }
    precert_entry := none }

/-- Modelled from the spec: populating the `PreCertEntry` variant
(cert_submission_handler.cc is not in the sources): the submitted leaf as
`pre_certificate`, the poison-stripped TBS and issuer key hash in
`pre_cert`, the chain members beyond the leaf as `precertificate_chain`;
the X.509 variant absent. -/
def mkPreCertEntry (leaf : Cert) (rest : List Cert) : LogEntry :=
  { type := EntryKind.PRECERT_ENTRY
    x509_entry := none
    precert_entry := some
      { pre_certificate := leaf
        pre_cert := { issuer_key_hash := issuerKeyHash rest
                      tbs_certificate := stripPoison leaf }
        precertificate_chain := rest } }

/-- Modelled from the spec: the requested-kind semantic match performed by
`CertSubmissionHandler::ProcessSubmission` after chain validation
(cert_submission_handler.cc is not in the sources). The validated,
anchored chain's classification must agree with the requested entry kind;
on agreement the corresponding entry variant is populated. -/
def finishSubmission (anchored : List Cert) (kind : EntryKind) :
    SubmitStatus × Option LogEntry :=
  match anchored with
  | [] => (SubmitStatus.INVALID_CERTIFICATE_CHAIN, none)
  | leaf :: rest =>
    match classify (leaf :: rest), kind with
    | ChainClass.Plain, EntryKind.X509_ENTRY =>
      (SubmitStatus.OK, some (mkX509Entry leaf rest))
    | ChainClass.PreCertChain, EntryKind.PRECERT_ENTRY =>
      (SubmitStatus.OK, some (mkPreCertEntry leaf rest))
    | _, _ => (SubmitStatus.KIND_MISMATCH, none)

/-- Modelled from the spec: `CertSubmissionHandler::ProcessSubmission`
(cert_submission_handler.cc is not in the sources; its tests are in
cert_submission_handler_test.cc). Fixed precedence of checks: emptiness,
then decoding, then chain validity (linkage, then anchoring), then the
requested-kind semantic match against CertChecker's classification. -/
def ProcessSubmission (store : List Cert) (sub : List Block)
    (kind : EntryKind) : SubmitStatus × Option LogEntry :=
  if sub.isEmpty then (SubmitStatus.EMPTY_SUBMISSION, none)
  else
    match decodeBlocks sub with
    | none => (SubmitStatus.INVALID_PEM_ENCODED_CHAIN, none)
    | some chain =>
      match checkCertChain store chain with
      | (SubmitStatus.OK, some anchored) => finishSubmission anchored kind
      | (err, _) => (err, none)

/-- Deterministic byte encoding of a certificate, used by the canonical
encoding that FrontendSigner signs. -/
def encodeCert (c : Cert) : List Nat :=
  [c.subject, c.issuer, c.pubKey, c.sigKey, c.notBefore, c.notAfter,
   cond c.poison 1 0, cond c.preSigning 1 0]

/-- Deterministic byte encoding of a certificate list. -/
def encodeCertList (cs : List Cert) : List Nat :=
  cs.length :: cs.flatMap encodeCert

/-- Modelled from the spec: the deterministic canonical encoding of a
`LogEntry` covering the entry-kind-specific fields (the serialization code
used by FrontendSigner is not in the sources). -/
def encodeLogEntry (e : LogEntry) : List Nat :=
  (match e.type with
    | EntryKind.X509_ENTRY => 0
    | EntryKind.PRECERT_ENTRY => 1) ::
  (match e.x509_entry with
    | none => [0]
    | some x =>
      1 :: encodeCert x.leaf_certificate ++ encodeCertList x.certificate_chain) ++
  (match e.precert_entry with
    | none => [0]
    | some p =>
      1 :: encodeCert p.pre_certificate ++
        (p.pre_cert.issuer_key_hash :: encodeCert p.pre_cert.tbs_certificate) ++
        encodeCertList p.precertificate_chain)

/-- The `ct::SignedCertificateTimestamp` message: the log key identifier,
issuance timestamp, extensions, the `DigitallySigned` over the canonical
encoding of (entry, timestamp), and — as documented on
`FrontendSigner::QueueEntry` (frontend_signer.h lines 26-27) — a copy of
the submitted entry. -/
structure SCT where
  key_id : Nat
  timestamp : Nat
  extensions : List Nat
  signature : DigitallySigned
  entry : LogEntry
deriving DecidableEq, Repr

/-- A persisted `ct::LoggedCertificate` record: the canonical dedup hash
of the entry, the entry, and its issued SCT. The canonical hash is
deterministic and treated as collision-free, so hash values are modelled
by the canonical entries they encode. -/
structure LoggedRecord where
  hash : LogEntry
  entry : LogEntry
  sct : SCT
deriving DecidableEq, Repr

/-- Modelled from the spec: the canonical dedup hash of a `LogEntry`
(`LoggedCertificate::Hash`, not in the sources) — a deterministic encoding
covering the entry-kind-specific fields, stable across repeated
submissions and treated as collision-free, hence modelled by the canonical
entry itself. -/
def canonicalHash (e : LogEntry) : LogEntry :=
  e

/-- The record store's lookup-by-hash over its list of persisted records
(the `Database` collaborator's `get`). -/
def lookupByHash (db : List LoggedRecord) (h : LogEntry) : Option LoggedRecord :=
  db.find? (fun r => decide (r.hash = h))

/-- `FrontendSigner::SubmitResult` (frontend_signer.h lines 14-17). -/
inductive SubmitResult where
| NEW
| DUPLICATE
deriving DecidableEq, Repr

/-- Modelled from the spec: `FrontendSigner::TimestampAndSign` (declared in
frontend_signer.h lines 35-36; frontend_signer.cc is not in the sources).
Takes the current time as the issuance timestamp, signs the canonical
encoding of (entry, timestamp) with the owned signer, and — per the
documentation of `QueueEntry` — copies the entry into the SCT. -/
def TimestampAndSign (signer : Signer) (now : Nat) (e : LogEntry) : SCT :=
  { key_id := signer.KeyID
    timestamp := now
    extensions := []
    signature := signer.Sign (now :: encodeLogEntry e)
    entry := e }

/-- Modelled from the spec: `FrontendSigner::QueueEntry` (declared in
frontend_signer.h lines 28-29; frontend_signer.cc is not in the sources).
Computes the canonical hash of the entry and looks the record store up by
it; if a record exists, returns `DUPLICATE` with the stored SCT
unmodified; otherwise signs a fresh SCT at the current time, persists a
new `LoggedRecord` keyed by the hash, and returns `NEW`. The record store
state is threaded explicitly; `now` is the current time read on this
call. -/
def QueueEntry (signer : Signer) (now : Nat) (db : List LoggedRecord)
    (e : LogEntry) : SubmitResult × SCT × List LoggedRecord :=
  let h := canonicalHash e
  match lookupByHash db h with
  | some r => (SubmitResult.DUPLICATE, r.sct, db)
  | none =>
    let sct := TimestampAndSign signer now e
    (SubmitResult.NEW, sct, { hash := h, entry := e, sct := sct } :: db)

/-- Runs a sequence of (timestamp, entry) submissions through
`QueueEntry`, returning the final record-store state. -/
def runQueue (signer : Signer) : List (Nat × LogEntry) → List LoggedRecord →
    List LoggedRecord
  | [], db => db
  | (t, e) :: ops, db => runQueue signer ops (QueueEntry signer t db e).2.2

/-- A private-key handle and a public-key handle form a matching keypair
when they refer to the same underlying key material, with the same
algorithm family. -/
def MatchingKeypair (priv pub : EVP_PKEY) : Prop :=
  priv.type = pub.type ∧ priv.material = pub.material

/-- C1: for every byte string `data` and every matching keypair
`(priv, pub)` (of the supported EC family, so that both objects construct),
`Verifier(pub).Verify(data, Signer(priv).Sign(data))` returns `OK`, and
`Signer(priv).KeyID()` equals `Verifier(pub).KeyID()`. -/
theorem C1_sign_verify_roundtrip (priv pub : EVP_PKEY) (s : Signer)
    (v : Verifier) (data : List Nat) (hm : MatchingKeypair priv pub)
    (hety : priv.type = KeyType.EC) (hs : mkSigner priv = some s)
    (hv : mkVerifier pub = some v) :
    v.Verify data (s.Sign data) = VerifyStatus.OK ∧ s.KeyID = v.KeyID := by
  obtain ⟨hty, hmat⟩ := hm
  have hpub : pub.type = KeyType.EC := hty ▸ hety
  rw [mkSigner, hety] at hs
  rw [mkVerifier, hpub] at hv
  cases hs
  cases hv
  refine ⟨?_, ?_⟩
  · simp [Verifier.Verify, Signer.Sign, RawSign, RawVerify, hmat]
  · simp [Signer.KeyID, Verifier.KeyID, ComputeKeyID, hmat]

/-- Witness for C1 at a concrete EC keypair and concrete data. -/
theorem C1_sign_verify_roundtrip_witness :
    (Verifier.Verify { pkey := ⟨KeyType.EC, 7⟩, hash_algo := .SHA256,
                       sig_algo := .ECDSA, key_id := 7 }
        [1, 2, 3]
        (Signer.Sign { pkey := ⟨KeyType.EC, 7⟩, hash_algo := .SHA256,
                       sig_algo := .ECDSA, key_id := 7 } [1, 2, 3])
      = VerifyStatus.OK) ∧
    Signer.KeyID { pkey := ⟨KeyType.EC, 7⟩, hash_algo := .SHA256,
                   sig_algo := .ECDSA, key_id := 7 }
      = Verifier.KeyID { pkey := ⟨KeyType.EC, 7⟩, hash_algo := .SHA256,
                         sig_algo := .ECDSA, key_id := 7 } :=
  C1_sign_verify_roundtrip ⟨KeyType.EC, 7⟩ ⟨KeyType.EC, 7⟩ _ _ [1, 2, 3]
    ⟨rfl, rfl⟩ rfl rfl rfl

/-- C9: constructing a `Signer` with a private key whose algorithm family
is unsupported fails fatally (modelled: `mkSigner` returns `none` exactly
for non-EC keys), and a successfully constructed `Signer` never fails in
`Sign`: it always returns a `DigitallySigned` tagged with the
instance-bound hash and signature algorithms (which are `SHA256`/`ECDSA`). -/
theorem C9_signer_fatal_unsupported_and_sign_total (pkey : EVP_PKEY) :
    (mkSigner pkey = none ↔ pkey.type ≠ KeyType.EC) ∧
    (∀ s : Signer, mkSigner pkey = some s → ∀ data : List Nat,
      (s.Sign data).hash_algorithm = s.hash_algo ∧
      (s.Sign data).sig_algorithm = s.sig_algo ∧
      s.hash_algo = HashAlgorithm.SHA256 ∧
      s.sig_algo = SignatureAlgorithm.ECDSA) := by
  constructor
  · constructor
    · intro h hEC
      rw [mkSigner, hEC] at h
      exact Option.noConfusion h
    · intro h
      rw [mkSigner]
      cases hty : pkey.type
      · exact absurd hty h
      · rfl
      · rfl
      · rfl
  · intro s hs data
    rw [mkSigner] at hs
    cases hty : pkey.type <;> rw [hty] at hs
    · cases hs
      exact ⟨rfl, rfl, rfl, rfl⟩
    · exact Option.noConfusion hs
    · exact Option.noConfusion hs
    · exact Option.noConfusion hs

/-- Witness for C9 at a concrete RSA key (construction aborts) and for the
`Sign` tagging at a concrete constructed signer. -/
theorem C9_signer_fatal_unsupported_and_sign_total_witness :
    (mkSigner ⟨KeyType.RSA, 5⟩ = none ↔ (⟨KeyType.RSA, 5⟩ : EVP_PKEY).type ≠ KeyType.EC) ∧
    (∀ s : Signer, mkSigner ⟨KeyType.RSA, 5⟩ = some s → ∀ data : List Nat,
      (s.Sign data).hash_algorithm = s.hash_algo ∧
      (s.Sign data).sig_algorithm = s.sig_algo ∧
      s.hash_algo = HashAlgorithm.SHA256 ∧
      s.sig_algo = SignatureAlgorithm.ECDSA) :=
  C9_signer_fatal_unsupported_and_sign_total ⟨KeyType.RSA, 5⟩

theorem checkCertChain_fst_ne_empty (store chain : List Cert) :
    (checkCertChain store chain).1 ≠ SubmitStatus.EMPTY_SUBMISSION := by
  rw [checkCertChain]
  split
  · split <;> simp
  · simp

theorem finishSubmission_fst_ne_empty (anchored : List Cert) (kind : EntryKind) :
    (finishSubmission anchored kind).1 ≠ SubmitStatus.EMPTY_SUBMISSION := by
  cases anchored with
  | nil => simp [finishSubmission]
  | cons leaf rest =>
    cases hcl : classify (leaf :: rest) <;> cases kind <;>
      simp [finishSubmission, hcl]

/-- C3: for every requested entry kind, `ProcessSubmission` applied to the
empty byte string returns `EMPTY_SUBMISSION`, and the emptiness check
precedes the decoding, chain-validity and kind-match checks: a non-empty
submission never yields `EMPTY_SUBMISSION`, so the code is produced by the
emptiness check alone, before any later check can fire. -/
theorem C3_empty_submission_first (store : List Cert) (kind : EntryKind) :
    ProcessSubmission store [] kind = (SubmitStatus.EMPTY_SUBMISSION, none) ∧
    ∀ sub : List Block, sub ≠ [] →
      (ProcessSubmission store sub kind).1 ≠ SubmitStatus.EMPTY_SUBMISSION := by
  refine ⟨rfl, ?_⟩
  intro sub hne
  cases sub with
  | nil => exact absurd rfl hne
  | cons b bs =>
    rw [ProcessSubmission]
    simp only [List.isEmpty_cons, Bool.false_eq_true, if_false]
    cases hdec : decodeBlocks (b :: bs) with
    | none => simp
    | some chain =>
      have h1 := checkCertChain_fst_ne_empty store chain
      cases hchk : checkCertChain store chain with
      | mk st oanch =>
        rw [hchk] at h1
        cases st <;> cases oanch <;>
          simp_all [finishSubmission_fst_ne_empty]

/-- Witness for C3 at the one requested kind of the empty-submission test,
with a concrete non-empty submission for the precedence conjunct. -/
theorem C3_empty_submission_first_witness :
    ProcessSubmission [] [] EntryKind.X509_ENTRY =
      (SubmitStatus.EMPTY_SUBMISSION, none) ∧
    (ProcessSubmission [] [Block.garbage] EntryKind.X509_ENTRY).1 ≠
      SubmitStatus.EMPTY_SUBMISSION :=
  ⟨(C3_empty_submission_first [] EntryKind.X509_ENTRY).1,
   (C3_empty_submission_first [] EntryKind.X509_ENTRY).2 [Block.garbage]
     (by decide)⟩

/-- C4: a leaf certificate directly issued by a certificate of the
TrustedRootStore (here: the first store member whose subject and key match
the leaf, as resolved by the anchor lookup), submitted alone with kind
X509, yields `OK`, and the resulting entry's `certificate_chain` is
exactly `[r]` — one certificate beyond the leaf, namely the resolved
anchor. The leaf is an ordinary end-entity certificate: sane validity
window, no poison extension, itself not a trust anchor, and its resolved
anchor is not a Precertificate Signing Certificate. -/
theorem C4_leaf_of_trusted_root (store : List Cert) (leaf r : Cert)
    (hwin : windowSane leaf = true)
    (hpoison : leaf.poison = false)
    (hnotstore : leaf ∉ store)
    (hfind : store.find? (fun a => linkOK leaf a) = some r)
    (hps : r.preSigning = false) :
    ProcessSubmission store [Block.cert leaf] EntryKind.X509_ENTRY =
      (SubmitStatus.OK, some
        { type := EntryKind.X509_ENTRY
          x509_entry := some { leaf_certificate := leaf
                               certificate_chain := [r] }
          precert_entry := none }) := by
  have h1 : decide (leaf ∈ store) = false := by simpa using hnotstore
  simp [ProcessSubmission, decodeBlocks, checkCertChain, chainLinked,
        anchorChain, finishSubmission, classify, mkX509Entry,
        hwin, hpoison, h1, hfind, hps]

/-- Witness for C4 at a concrete store and leaf. -/
theorem C4_leaf_of_trusted_root_witness :
    ProcessSubmission [⟨100, 100, 10, 10, 0, 9, false, false⟩]
        [Block.cert ⟨1, 100, 2, 10, 0, 9, false, false⟩]
        EntryKind.X509_ENTRY =
      (SubmitStatus.OK, some
        { type := EntryKind.X509_ENTRY
          x509_entry := some
            { leaf_certificate := ⟨1, 100, 2, 10, 0, 9, false, false⟩
              certificate_chain := [⟨100, 100, 10, 10, 0, 9, false, false⟩] }
          precert_entry := none }) :=
  C4_leaf_of_trusted_root [⟨100, 100, 10, 10, 0, 9, false, false⟩]
    ⟨1, 100, 2, 10, 0, 9, false, false⟩ ⟨100, 100, 10, 10, 0, 9, false, false⟩
    (by decide) (by decide) (by decide) (by decide) (by decide)

/-- C5: submitting the concatenation of two copies of a certificate whose
adjacent pair violates issuer/subject linkage (the duplicated pair links
only if the certificate's issuer equals its own subject) yields
`INVALID_CERTIFICATE_CHAIN` for every requested kind and every store: the
chain is rejected as submitted, never silently reordered into a valid
one. -/
theorem C5_duplicated_leaf_invalid (store : List Cert) (kind : EntryKind)
    (c : Cert) (hss : c.subject ≠ c.issuer) :
    ProcessSubmission store [Block.cert c, Block.cert c] kind =
      (SubmitStatus.INVALID_CERTIFICATE_CHAIN, none) := by
  have hlink : linkOK c c = false := by simp [linkOK, hss]
  have hlinked : chainLinked [c, c] = false := by simp [chainLinked, hlink]
  simp [ProcessSubmission, decodeBlocks, checkCertChain, hlinked]

/-- Witness for C5 at a concrete non-self-issued certificate. -/
theorem C5_duplicated_leaf_invalid_witness :
    ProcessSubmission [] [Block.cert ⟨1, 100, 2, 10, 0, 9, false, false⟩,
        Block.cert ⟨1, 100, 2, 10, 0, 9, false, false⟩] EntryKind.X509_ENTRY =
      (SubmitStatus.INVALID_CERTIFICATE_CHAIN, none) :=
  C5_duplicated_leaf_invalid [] EntryKind.X509_ENTRY
    ⟨1, 100, 2, 10, 0, 9, false, false⟩ (by decide)

/-- C6: a valid pre-certificate leaf (poison extension present, sane
window) issued directly by a trust anchor, submitted together with that
anchor under requested kind PreCert, yields `OK` with the `PreCertEntry`
variant populated (`pre_certificate`, `issuer_key_hash` and
`tbs_certificate` present), the `X509Entry` variant absent, and a
`precertificate_chain` of length exactly 1 (the anchor). -/
theorem C6_precert_plus_anchor (store : List Cert) (p a : Cert)
    (ha : a ∈ store)
    (hpoison : p.poison = true)
    (hwp : windowSane p = true)
    (hwa : windowSane a = true)
    (hlink : linkOK p a = true) :
    ProcessSubmission store [Block.cert p, Block.cert a]
        EntryKind.PRECERT_ENTRY =
      (SubmitStatus.OK, some
        { type := EntryKind.PRECERT_ENTRY
          x509_entry := none
          precert_entry := some
            { pre_certificate := p
              pre_cert := { issuer_key_hash := issuerKeyHash [a]
                            tbs_certificate := stripPoison p }
              precertificate_chain := [a] } }) := by
  have h2 : decide (a ∈ store) = true := by simpa using ha
  simp [ProcessSubmission, decodeBlocks, checkCertChain, chainLinked,
        anchorChain, finishSubmission, classify, mkPreCertEntry,
        hwp, hwa, hlink, hpoison, h2]

/-- Witness for C6 at a concrete pre-certificate and anchor. -/
theorem C6_precert_plus_anchor_witness :
    ProcessSubmission [⟨100, 100, 10, 10, 0, 9, false, false⟩]
        [Block.cert ⟨1, 100, 2, 10, 0, 9, true, false⟩,
         Block.cert ⟨100, 100, 10, 10, 0, 9, false, false⟩]
        EntryKind.PRECERT_ENTRY =
      (SubmitStatus.OK, some
        { type := EntryKind.PRECERT_ENTRY
          x509_entry := none
          precert_entry := some
            { pre_certificate := ⟨1, 100, 2, 10, 0, 9, true, false⟩
              pre_cert :=
                { issuer_key_hash :=
                    issuerKeyHash [⟨100, 100, 10, 10, 0, 9, false, false⟩]
                  tbs_certificate :=
                    stripPoison ⟨1, 100, 2, 10, 0, 9, true, false⟩ }
              precertificate_chain :=
                [⟨100, 100, 10, 10, 0, 9, false, false⟩] } }) :=
  C6_precert_plus_anchor [⟨100, 100, 10, 10, 0, 9, false, false⟩]
    ⟨1, 100, 2, 10, 0, 9, true, false⟩ ⟨100, 100, 10, 10, 0, 9, false, false⟩
    (by decide) (by decide) (by decide) (by decide) (by decide)

/-- C7: when CertChecker validates a submission's chain and classifies it
as plain, requesting kind PreCert makes `ProcessSubmission` return a
non-`OK` result; symmetrically, a chain classified as a pre-certificate
chain requested as X509 is also non-`OK`. -/
theorem C7_kind_mismatch_not_ok (store : List Cert) (sub : List Block)
    (chain anchored : List Cert)
    (hne : sub ≠ [])
    (hdec : decodeBlocks sub = some chain)
    (hchk : checkCertChain store chain = (SubmitStatus.OK, some anchored)) :
    (classify anchored = ChainClass.Plain →
      (ProcessSubmission store sub EntryKind.PRECERT_ENTRY).1 ≠
        SubmitStatus.OK) ∧
    (classify anchored = ChainClass.PreCertChain →
      (ProcessSubmission store sub EntryKind.X509_ENTRY).1 ≠
        SubmitStatus.OK) := by
  cases sub with
  | nil => exact absurd rfl hne
  | cons b bs =>
    constructor <;> intro hclass <;>
    · have hred : ∀ kind, ProcessSubmission store (b :: bs) kind =
          finishSubmission anchored kind := by
        intro kind
        simp [ProcessSubmission, hdec, hchk]
      rw [hred]
      cases anchored with
      | nil => simp [finishSubmission]
      | cons leaf rest => simp [finishSubmission, hclass]

/-- Witness for C7: a concrete plain chain (a self-signed trust anchor
submitted alone) requested as PreCert is not `OK`, via the first conjunct
of the theorem. -/
theorem C7_kind_mismatch_not_ok_witness :
    (ProcessSubmission [⟨100, 100, 10, 10, 0, 9, false, false⟩]
        [Block.cert ⟨100, 100, 10, 10, 0, 9, false, false⟩]
        EntryKind.PRECERT_ENTRY).1 ≠ SubmitStatus.OK :=
  (C7_kind_mismatch_not_ok [⟨100, 100, 10, 10, 0, 9, false, false⟩]
      [Block.cert ⟨100, 100, 10, 10, 0, 9, false, false⟩]
      [⟨100, 100, 10, 10, 0, 9, false, false⟩]
      [⟨100, 100, 10, 10, 0, 9, false, false⟩]
      (by decide) (by decide) (by decide)).1 (by decide)

/-- C8: a well-formed leaf certificate (sane validity window) that is not
itself a trust anchor and whose issuer cannot be resolved in the
TrustedRootStore (the issuer being an untrusted intermediate absent from
the submission), submitted alone, yields `UNKNOWN_ROOT` for every
requested kind. -/
theorem C8_unresolved_issuer_unknown_root (store : List Cert)
    (kind : EntryKind) (leaf : Cert)
    (hwin : windowSane leaf = true)
    (hnotstore : leaf ∉ store)
    (hfind : store.find? (fun a => linkOK leaf a) = none) :
    ProcessSubmission store [Block.cert leaf] kind =
      (SubmitStatus.UNKNOWN_ROOT, none) := by
  have h1 : decide (leaf ∈ store) = false := by simpa using hnotstore
  simp [ProcessSubmission, decodeBlocks, checkCertChain, chainLinked,
        anchorChain, hwin, h1, hfind]

/-- Witness for C8 at a concrete leaf issued by an absent intermediate. -/
theorem C8_unresolved_issuer_unknown_root_witness :
    ProcessSubmission [⟨100, 100, 10, 10, 0, 9, false, false⟩]
        [Block.cert ⟨3, 50, 4, 5, 0, 9, false, false⟩] EntryKind.X509_ENTRY =
      (SubmitStatus.UNKNOWN_ROOT, none) :=
  C8_unresolved_issuer_unknown_root [⟨100, 100, 10, 10, 0, 9, false, false⟩]
    EntryKind.X509_ENTRY ⟨3, 50, 4, 5, 0, 9, false, false⟩
    (by decide) (by decide) (by decide)

theorem lookupByHash_QueueEntry_preserved (signer : Signer) (now : Nat)
    (db : List LoggedRecord) (e h : LogEntry) (r : LoggedRecord)
    (hfound : lookupByHash db h = some r) :
    lookupByHash (QueueEntry signer now db e).2.2 h = some r := by
  cases hcase : lookupByHash db (canonicalHash e) with
  | some r2 => simpa [QueueEntry, hcase] using hfound
  | none =>
    have hne : ¬ canonicalHash e = h := by
      intro heq
      rw [heq, hfound] at hcase
      exact Option.noConfusion hcase
    have hcase2 : List.find? (fun r => decide (r.hash = canonicalHash e)) db =
        none := hcase
    have hfound2 : List.find? (fun r => decide (r.hash = h)) db = some r := hfound
    simp [QueueEntry, hcase2, lookupByHash, List.find?, hne, hfound2]

theorem lookupByHash_runQueue_preserved (signer : Signer)
    (ops : List (Nat × LogEntry)) (db : List LoggedRecord) (h : LogEntry)
    (r : LoggedRecord) (hfound : lookupByHash db h = some r) :
    lookupByHash (runQueue signer ops db) h = some r := by
  induction ops generalizing db with
  | nil => simpa [runQueue] using hfound
  | cons op ops ih =>
    cases op with
    | mk t e =>
      exact ih _ (lookupByHash_QueueEntry_preserved signer t db e h r hfound)

/-- C2: queueing a canonical `LogEntry` when no `LoggedRecord` exists under
its canonical hash returns `NEW` with a fresh SCT, and every subsequent
call with the same entry — after any further sequence of submissions —
returns `DUPLICATE` with an SCT byte-identical to the stored one and
leaves the store unchanged: a resubmission never produces a new
signature, whatever the later call's clock reads. -/
theorem C2_queue_new_then_duplicate (signer : Signer) (now : Nat)
    (db : List LoggedRecord) (e : LogEntry)
    (habsent : lookupByHash db (canonicalHash e) = none) :
    (QueueEntry signer now db e).1 = SubmitResult.NEW ∧
    ∀ (ops : List (Nat × LogEntry)) (later : Nat),
      QueueEntry signer later
          (runQueue signer ops (QueueEntry signer now db e).2.2) e =
        (SubmitResult.DUPLICATE, (QueueEntry signer now db e).2.1,
          runQueue signer ops (QueueEntry signer now db e).2.2) := by
  have hq : QueueEntry signer now db e =
      (SubmitResult.NEW, TimestampAndSign signer now e,
        { hash := canonicalHash e, entry := e,
          sct := TimestampAndSign signer now e } :: db) := by
    simp [QueueEntry, habsent]
  refine ⟨by rw [hq], ?_⟩
  intro ops later
  have hrec : lookupByHash
      (({ hash := canonicalHash e, entry := e,
          sct := TimestampAndSign signer now e } : LoggedRecord) :: db)
      (canonicalHash e) =
      some { hash := canonicalHash e, entry := e,
             sct := TimestampAndSign signer now e } := by
    simp [lookupByHash, List.find?]
  have hfound := lookupByHash_runQueue_preserved signer ops _ _ _ hrec
  simp only [hq]
  simp [QueueEntry, hfound]

/-- Witness for C2 at a concrete signer, entry and empty store, with one
unrelated interleaved submission before the resubmission. -/
theorem C2_queue_new_then_duplicate_witness :
    (QueueEntry ⟨⟨KeyType.EC, 7⟩, .SHA256, .ECDSA, 7⟩ 5 []
        (mkX509Entry ⟨1, 100, 2, 10, 0, 9, false, false⟩
          [⟨100, 100, 10, 10, 0, 9, false, false⟩])).1 = SubmitResult.NEW ∧
    QueueEntry ⟨⟨KeyType.EC, 7⟩, .SHA256, .ECDSA, 7⟩ 9
        (runQueue ⟨⟨KeyType.EC, 7⟩, .SHA256, .ECDSA, 7⟩
          [(6, mkX509Entry ⟨3, 50, 4, 5, 0, 9, false, false⟩ [])]
          (QueueEntry ⟨⟨KeyType.EC, 7⟩, .SHA256, .ECDSA, 7⟩ 5 []
            (mkX509Entry ⟨1, 100, 2, 10, 0, 9, false, false⟩
              [⟨100, 100, 10, 10, 0, 9, false, false⟩])).2.2)
        (mkX509Entry ⟨1, 100, 2, 10, 0, 9, false, false⟩
          [⟨100, 100, 10, 10, 0, 9, false, false⟩]) =
      (SubmitResult.DUPLICATE,
        (QueueEntry ⟨⟨KeyType.EC, 7⟩, .SHA256, .ECDSA, 7⟩ 5 []
          (mkX509Entry ⟨1, 100, 2, 10, 0, 9, false, false⟩
            [⟨100, 100, 10, 10, 0, 9, false, false⟩])).2.1,
        runQueue ⟨⟨KeyType.EC, 7⟩, .SHA256, .ECDSA, 7⟩
          [(6, mkX509Entry ⟨3, 50, 4, 5, 0, 9, false, false⟩ [])]
          (QueueEntry ⟨⟨KeyType.EC, 7⟩, .SHA256, .ECDSA, 7⟩ 5 []
            (mkX509Entry ⟨1, 100, 2, 10, 0, 9, false, false⟩
              [⟨100, 100, 10, 10, 0, 9, false, false⟩])).2.2) :=
  ⟨(C2_queue_new_then_duplicate ⟨⟨KeyType.EC, 7⟩, .SHA256, .ECDSA, 7⟩ 5 []
      (mkX509Entry ⟨1, 100, 2, 10, 0, 9, false, false⟩
        [⟨100, 100, 10, 10, 0, 9, false, false⟩]) rfl).1,
   (C2_queue_new_then_duplicate ⟨⟨KeyType.EC, 7⟩, .SHA256, .ECDSA, 7⟩ 5 []
      (mkX509Entry ⟨1, 100, 2, 10, 0, 9, false, false⟩
        [⟨100, 100, 10, 10, 0, 9, false, false⟩]) rfl).2
     [(6, mkX509Entry ⟨3, 50, 4, 5, 0, 9, false, false⟩ [])] 9⟩

/-- Well-formedness of the record store: every persisted record is keyed
by the canonical hash of its entry and its stored SCT carries that entry
(the state every store reachable through `QueueEntry` satisfies). -/
def WFStore (db : List LoggedRecord) : Prop :=
  ∀ r ∈ db, r.hash = canonicalHash r.entry ∧ r.sct.entry = r.entry

/-- C10: on every call — `NEW` or `DUPLICATE` — the SCT returned by
`QueueEntry` carries a copy of the submitted entry, an output field beyond
the (key identifier, timestamp, signature) SCT schema, as documented on
`FrontendSigner::QueueEntry`; the store well-formedness this relies on is
itself preserved by `QueueEntry`. -/
theorem C10_sct_carries_entry (signer : Signer) (now : Nat)
    (db : List LoggedRecord) (e : LogEntry) (hwf : WFStore db) :
    (QueueEntry signer now db e).2.1.entry = e ∧
    WFStore (QueueEntry signer now db e).2.2 := by
  cases hcase : lookupByHash db (canonicalHash e) with
  | some r =>
    have hmem : r ∈ db := List.mem_of_find?_eq_some hcase
    have hhash : r.hash = canonicalHash e := by
      have := List.find?_some hcase
      simpa using this
    obtain ⟨h1, h2⟩ := hwf r hmem
    rw [canonicalHash] at h1 hhash
    rw [h1] at hhash
    constructor
    · simp [QueueEntry, hcase, h2, hhash]
    · simpa [QueueEntry, hcase] using hwf
  | none =>
    constructor
    · simp [QueueEntry, hcase, TimestampAndSign]
    · intro r2 hr2
      simp [QueueEntry, hcase] at hr2
      rcases hr2 with h | h
      · rw [h]
        exact ⟨rfl, rfl⟩
      · exact hwf r2 h

/-- Witness for C10 at a concrete signer, entry and the empty
(well-formed) store. -/
theorem C10_sct_carries_entry_witness :
    (QueueEntry ⟨⟨KeyType.EC, 7⟩, .SHA256, .ECDSA, 7⟩ 5 []
        (mkX509Entry ⟨1, 100, 2, 10, 0, 9, false, false⟩
          [⟨100, 100, 10, 10, 0, 9, false, false⟩])).2.1.entry =
      mkX509Entry ⟨1, 100, 2, 10, 0, 9, false, false⟩
        [⟨100, 100, 10, 10, 0, 9, false, false⟩] ∧
    WFStore (QueueEntry ⟨⟨KeyType.EC, 7⟩, .SHA256, .ECDSA, 7⟩ 5 []
        (mkX509Entry ⟨1, 100, 2, 10, 0, 9, false, false⟩
          [⟨100, 100, 10, 10, 0, 9, false, false⟩])).2.2 :=
  C10_sct_carries_entry ⟨⟨KeyType.EC, 7⟩, .SHA256, .ECDSA, 7⟩ 5 []
    (mkX509Entry ⟨1, 100, 2, 10, 0, 9, false, false⟩
      [⟨100, 100, 10, 10, 0, 9, false, false⟩])
    (by intro r hr; exact absurd hr (List.not_mem_nil r))

end CT
